import Mathlib

/-!
Verification of the TISS XML billing extractor / reconciler.

Shallow embedding of the core of `tiss_parser.py` and `app.py`:

* XML documents are modelled as Lean structures whose fields correspond
  one-to-one to the element paths the parser reads.  Monetary text fields
  are modelled by their parsed decimal value (`Option ℚ`): `none` stands
  for an element that is absent or has empty text (both of which
  `_dec` maps to 0 and the presence guards treat as missing); `some q`
  stands for an element whose (comma-normalised, stripped) text parses to
  the exact decimal `q`.  Malformed numeric text, which raises in Python,
  is outside the modelled input space.  Decimal arithmetic
  (`decimal.Decimal`, and the float arithmetic of the pandas layer) is
  modelled exactly over `ℚ`.
* Identifier fields keep their raw text (`Option String`, `none` =
  element absent or text `None`).
* Python truthiness of a string is emptiness; `(x or '').strip()` is
  `orEmptyTrim`.
* Guide elements are modelled as residing under the standard
  `prestadorParaOperadora/loteGuias/guiasTISS` path, the only place the
  TISS schema puts them, so the presence tests (`.//ans:guiaConsulta`)
  and the summation loops range over the same lists.
-/

/-- Python `(x or '').strip()` applied to an optional string. -/
def orEmptyTrim (o : Option String) : String := (o.getD "").trim

/-- Value of `_dec` applied to an optional monetary element (absent or
empty text gives 0). -/
def dec0 (o : Option ℚ) : ℚ := o.getD 0

/-- ASCII model of Python `str.upper`. -/
def asciiUpper (s : String) : String := s.map Char.toUpper

/-- Model of `_get_text`: the stripped text of an optional element, `""`
when the element is absent or has no text. -/
def getText (o : Option String) : String := (o.getD "").trim

/-- One `ans:procedimentoExecutado` item of a SADT guide
(`tiss_parser.py`, `_sum_itens_procedimentos`). -/
structure ProcItem where
  valorTotal : Option ℚ
  valorUnitario : Option ℚ
  quantidadeExecutada : Option ℚ
  deriving Repr, DecidableEq

/-- The `ans:servicosExecutados` block of an other-expense entry. -/
structure ServicosExecutados where
  valorTotal : Option ℚ
  deriving Repr, DecidableEq

/-- One `ans:despesa` entry under `ans:outrasDespesas`. -/
structure Despesa where
  servicosExecutados : Option ServicosExecutados
  deriving Repr, DecidableEq

/-- The `ans:valorTotal` block of a SADT guide: declared grand total and
the named component fields (`_sum_componentes_valorTotal`). -/
structure ValorTotalBloco where
  valorTotalGeral : Option ℚ
  valorProcedimentos : Option ℚ
  valorDiarias : Option ℚ
  valorTaxasAlugueis : Option ℚ
  valorMateriais : Option ℚ
  valorMedicamentos : Option ℚ
  valorGasesMedicinais : Option ℚ
  deriving Repr, DecidableEq

/-- One `ans:guiaSP-SADT` guide. -/
structure GuiaSadt where
  valorTotal : Option ValorTotalBloco
  procedimentosExecutados : List ProcItem
  outrasDespesas : List Despesa
  deriving Repr, DecidableEq

/-- One `ans:guiaConsulta` guide; `valorProcedimento` is its first
`ans:procedimento/ans:valorProcedimento` descendant. -/
structure GuiaConsulta where
  valorProcedimento : Option ℚ
  deriving Repr, DecidableEq

/-- A parsed TISS document, restricted to the element paths the parser
reads.  `hasGuiaRecursoGlosa` is the presence of
`prestadorParaOperadora/recursoGlosa/guiaRecursoGlosa`;
`recursoNumeroLote`, `valorTotalRecursado` and `numeroProtocolo` are
fields of that block; `recursoGuiaCount` is the number of its
`opcaoRecurso/recursoGuia` entries. -/
structure Doc where
  tipoTransacao : Option String
  hasGuiaRecursoGlosa : Bool
  loteGuiasNumeroLote : Option String
  recursoNumeroLote : Option String
  guiasConsulta : List GuiaConsulta
  guiasSadt : List GuiaSadt
  recursoGuiaCount : Nat
  valorTotalRecursado : Option ℚ
  numeroProtocolo : Option String
  deriving Repr, DecidableEq

/-- Model of `_is_consulta`: some `guiaConsulta` element exists. -/
def is_consulta (d : Doc) : Bool := !d.guiasConsulta.isEmpty

/-- Model of `_is_sadt`: some `guiaSP-SADT` element exists. -/
def is_sadt (d : Doc) : Bool := !d.guiasSadt.isEmpty

/-- Model of `_is_recurso`: the declared `tipoTransacao`, stripped and
upper-cased, equals `RECURSO_GLOSA`, or a `guiaRecursoGlosa` block is
present. -/
def is_recurso (d : Doc) : Bool :=
  asciiUpper (orEmptyTrim d.tipoTransacao) == "RECURSO_GLOSA" || d.hasGuiaRecursoGlosa

/-- Presence-and-non-empty test used by `_get_numero_lote`
(`el is not None and el.text and el.text.strip()`), returning the
stripped text when it succeeds. -/
def loteText (o : Option String) : Option String :=
  match o with
  | some t => if t.trim = "" then none else some t.trim
  | none => none

/-- Model of `_get_numero_lote`: the batch identifier under `loteGuias`,
else the one under `guiaRecursoGlosa`, else a `TissParsingError`. -/
def get_numero_lote (d : Doc) : Except String String :=
  match loteText d.loteGuiasNumeroLote with
  | some s => .ok s
  | none =>
    match loteText d.recursoNumeroLote with
    | some s => .ok s
    | none => .error "numeroLote não encontrado no XML."

/-- Model of `_sum_consulta`: guide count, sum of the per-guide
`valorProcedimento` values, fixed strategy label. -/
def sum_consulta (d : Doc) : Nat × ℚ × String :=
  (d.guiasConsulta.length,
   d.guiasConsulta.foldl (fun acc g => acc + dec0 g.valorProcedimento) 0,
   "consulta_valorProcedimento")

/-- Model of `_sum_itens_procedimentos`: per item, the declared item
total when present with non-empty text, else unit value times executed
quantity when both are present. -/
def sum_itens_procedimentos (g : GuiaSadt) : ℚ :=
  g.procedimentosExecutados.foldl
    (fun acc it =>
      match it.valorTotal with
      | some v => acc + v
      | none =>
        match it.valorUnitario, it.quantidadeExecutada with
        | some u, some q => acc + u * q
        | _, _ => acc)
    0

/-- Model of `_sum_itens_outras_desp`: per expense entry, the
`servicosExecutados/valorTotal` value (0 when the value element is
absent), skipping entries without a `servicosExecutados` block. -/
def sum_itens_outras_desp (g : GuiaSadt) : ℚ :=
  g.outrasDespesas.foldl
    (fun acc dsp =>
      match dsp.servicosExecutados with
      | none => acc
      | some sv => acc + dec0 sv.valorTotal)
    0

/-- Model of `_sum_componentes_valorTotal`: sum of the six named
component fields of the guide's `valorTotal` block, 0 when the block is
absent. -/
def sum_componentes_valorTotal (g : GuiaSadt) : ℚ :=
  match g.valorTotal with
  | none => 0
  | some vt =>
    dec0 vt.valorProcedimentos + dec0 vt.valorDiarias + dec0 vt.valorTaxasAlugueis +
      dec0 vt.valorMateriais + dec0 vt.valorMedicamentos + dec0 vt.valorGasesMedicinais

/-- Tiers 2–4 of `_sum_sadt_guia` (the code past the `valorTotalGeral`
early return): itemised sum if positive, else component sum if positive,
else zero. -/
def sum_sadt_guia_rest (g : GuiaSadt) : ℚ × String :=
  let itens_total := sum_itens_procedimentos g + sum_itens_outras_desp g
  if 0 < itens_total then (itens_total, "itens (proced+outras)")
  else
    let comp_total := sum_componentes_valorTotal g
    if 0 < comp_total then (comp_total, "componentes_valorTotal")
    else (0, "zero")

/-- Model of `_sum_sadt_guia`: if the guide's `valorTotal` block exists
and its `valorTotalGeral` parses to a positive value, return it;
otherwise fall through to the itemised/component tiers. -/
def sum_sadt_guia (g : GuiaSadt) : ℚ × String :=
  match g.valorTotal with
  | some vt =>
    let v := dec0 vt.valorTotalGeral
    if 0 < v then (v, "valorTotalGeral") else sum_sadt_guia_rest g
  | none => sum_sadt_guia_rest g

/-- One step of the `estrategias[strat] = estrategias.get(strat, 0) + 1`
dict update, keeping insertion order like a Python dict. -/
def bump (m : List (String × Nat)) (s : String) : List (String × Nat) :=
  match m with
  | [] => [(s, 1)]
  | (k, v) :: rest => if k = s then (k, v + 1) :: rest else (k, v) :: bump rest s

/-- The per-strategy guide counts accumulated by the `_sum_sadt` loop. -/
def strategyCounts (gs : List GuiaSadt) : List (String × Nat) :=
  gs.foldl (fun m g => bump m (sum_sadt_guia g).2) []

/-- Ordering of the `sorted(estrategias.items(), key=lambda x: (-x[1], x[0]))`
call: descending count, then ascending name. -/
def strategyOrder (p q : String × Nat) : Prop :=
  q.2 < p.2 ∨ (p.2 = q.2 ∧ p.1 ≤ q.1)

instance : DecidableRel strategyOrder := fun p q => by
  unfold strategyOrder; exact inferInstance

instance : IsTotal (String × Nat) strategyOrder := by
  constructor
  intro p q
  rcases Nat.lt_trichotomy p.2 q.2 with h | h | h
  · exact Or.inr (Or.inl h)
  · rcases le_total p.1 q.1 with h1 | h1
    · exact Or.inl (Or.inr ⟨h.symm ▸ rfl, h1⟩)
    · exact Or.inr (Or.inr ⟨h ▸ rfl, h1⟩)
  · exact Or.inl (Or.inl h)

instance : IsTrans (String × Nat) strategyOrder := by
  constructor
  intro p q s hpq hqs
  rcases hpq with h1 | ⟨h1, h1le⟩
  · rcases hqs with h2 | ⟨h2, _⟩
    · exact Or.inl (h2.trans h1)
    · exact Or.inl (h2 ▸ h1)
  · rcases hqs with h2 | ⟨h2, h2le⟩
    · exact Or.inl (h1 ▸ h2)
    · exact Or.inr ⟨h1.trans h2, le_trans h1le h2le⟩

/-- The sort applied to the strategy-count items before joining. -/
def sortCounts (m : List (String × Nat)) : List (String × Nat) :=
  List.insertionSort strategyOrder m

/-- The composite mixed label
`"misto: " + ", ".join(f"k=v" for sorted items)`. -/
def mistoLabel (m : List (String × Nat)) : String :=
  "misto: " ++ String.intercalate ", "
    ((sortCounts m).map (fun p => p.1 ++ "=" ++ toString p.2))

/-- Model of `_sum_sadt`: guide count, summed per-guide totals, and the
per-document strategy label (single strategy, or the mixed label). -/
def sum_sadt (d : Doc) : Nat × ℚ × String :=
  let gs := d.guiasSadt
  let total := gs.foldl (fun acc g => acc + (sum_sadt_guia g).1) 0
  let estrategias := strategyCounts gs
  if gs.isEmpty then (0, 0, "zero")
  else if estrategias.length = 1 then
    (gs.length, total, (estrategias.headD ("", 0)).1)
  else (gs.length, total, mistoLabel estrategias)

/-- Model of `_sum_recurso`: sub-guide count, the declared
`valorTotalRecursado`, fixed label, and the stripped protocol text. -/
def sum_recurso (d : Doc) : Nat × ℚ × String × String :=
  (d.recursoGuiaCount, dec0 d.valorTotalRecursado,
   "recurso_valorTotalRecursado", getText d.numeroProtocolo)

/-- One summary record of `_parse_root` / `parse_many_xmls`.  Optional
dict keys (`protocolo`, `erro`) are `Option`; the constant
`parser_version` field is omitted. -/
structure Resumo where
  arquivo : String
  numero_lote : String
  tipo : String
  qtde_guias : Nat
  valor_total : ℚ
  valor_glosado : ℚ
  valor_liberado : ℚ
  estrategia_total : String
  protocolo : Option String
  erro : Option String
  deriving Repr, DecidableEq

/-- Model of `_parse_root`: extract the batch identifier (or fail), then
dispatch on the document kind and build the summary record. -/
def parse_root (d : Doc) (arquivo_nome : String) : Except String Resumo :=
  match get_numero_lote d with
  | .error e => .error e
  | .ok numero_lote =>
    if is_recurso d then
      let r := sum_recurso d
      .ok { arquivo := arquivo_nome, numero_lote := numero_lote, tipo := "RECURSO",
            qtde_guias := r.1, valor_total := r.2.1,
            valor_glosado := 0, valor_liberado := 0,
            estrategia_total := r.2.2.1,
            protocolo := if r.2.2.2 = "" then none else some r.2.2.2,
            erro := none }
    else if is_consulta d then
      let r := sum_consulta d
      .ok { arquivo := arquivo_nome, numero_lote := numero_lote, tipo := "CONSULTA",
            qtde_guias := r.1, valor_total := r.2.1,
            valor_glosado := 0, valor_liberado := 0,
            estrategia_total := r.2.2, protocolo := none, erro := none }
    else
      let tipo := if is_sadt d then "SADT" else "DESCONHECIDO"
      let r := if is_sadt d then sum_sadt d else (0, 0, "zero")
      .ok { arquivo := arquivo_nome, numero_lote := numero_lote, tipo := tipo,
            qtde_guias := r.1, valor_total := r.2.1,
            valor_glosado := 0, valor_liberado := 0,
            estrategia_total := r.2.2, protocolo := none, erro := none }

/-- The error-marker record `parse_many_xmls` emits for a failed
document. -/
def erroResumo (arquivo : String) (e : String) : Resumo :=
  { arquivo := arquivo, numero_lote := "", tipo := "DESCONHECIDO",
    qtde_guias := 0, valor_total := 0, valor_glosado := 0, valor_liberado := 0,
    estrategia_total := "erro", protocolo := none, erro := some e }

/-- Model of `parse_many_xmls` over already-loaded documents paired with
their file names: one result per input, a failed document yielding its
error record in place. -/
def parse_many_xmls (inputs : List (String × Doc)) : List Resumo :=
  inputs.map (fun p =>
    match parse_root p.2 p.1 with
    | .ok r => r
    | .error e => erroResumo p.1 e)

/-- The document kind assigned by the `_parse_root` dispatch chain. -/
def tipoOf (d : Doc) : String :=
  if is_recurso d then "RECURSO"
  else if is_consulta d then "CONSULTA"
  else if is_sadt d then "SADT"
  else "DESCONHECIDO"

/-- Whitespace class of the Python regex `\s` (ASCII range). -/
def pyWs (c : Char) : Bool :=
  c = ' ' || c = '\t' || c = '\n' || c = '\r' || c = '\x0b' || c = '\x0c'

/-- Separator class `[-_]` of the filename-lot regex. -/
def loteSep (c : Char) : Bool := c = '-' || c = '_'

/-- Attempt of the regex `(?i)lote\s*[-_]*\s*(\d+)` at one position:
the literal `lote` case-insensitively, greedy whitespace, separators,
whitespace, then at least one digit (the captured run). -/
def matchLoteAt (cs : List Char) : Option (List Char) :=
  match cs with
  | c1 :: c2 :: c3 :: c4 :: rest =>
    if [c1.toLower, c2.toLower, c3.toLower, c4.toLower] = ['l', 'o', 't', 'e'] then
      let r1 := rest.dropWhile pyWs
      let r2 := r1.dropWhile loteSep
      let r3 := r2.dropWhile pyWs
      let ds := r3.takeWhile Char.isDigit
      if ds.isEmpty then none else some ds
    else none
  | _ => none

/-- Left-to-right scan of `re.search`: the first position where the
pattern matches wins. -/
def scanLote : List Char → Option (List Char)
  | [] => none
  | c :: rest =>
    match matchLoteAt (c :: rest) with
    | some ds => some ds
    | none => scanLote rest

/-- Model of `extract_lote_from_filename`: first digit run following the
token `lote` (case-insensitive, optional separators), or nothing. -/
def extract_lote_from_filename (name : String) : Option String :=
  (scanLote name.toList).map (fun ds => String.mk ds)

/-- Numeric value of a digit run. -/
def digitsToNat (ds : List Char) : Nat :=
  ds.foldl (fun n c => 10 * n + (c.toNat - '0'.toNat)) 0

/-- Exact model of Python `float(s)` on finite decimal literals:
optional sign, digits with an optional fractional part, optional
exponent; `none` when `s` is not of that shape (a `ValueError`).  The
parse is exact over `ℚ`; inputs large enough for double rounding to
matter, `inf`/`nan` forms and underscore separators are outside the
modelled input space. -/
def parseFloatQ (s : String) : Option ℚ :=
  let cs := s.toList
  let (sgn, cs1) :=
    match cs with
    | '+' :: t => ((1 : ℚ), t)
    | '-' :: t => ((-1 : ℚ), t)
    | t => ((1 : ℚ), t)
  let intPart := cs1.takeWhile Char.isDigit
  let cs2 := cs1.dropWhile Char.isDigit
  let (fracPart, cs3) :=
    match cs2 with
    | '.' :: t => (t.takeWhile Char.isDigit, t.dropWhile Char.isDigit)
    | t => ([], t)
  if intPart.isEmpty && fracPart.isEmpty then none
  else
    let mant : ℚ := sgn * (digitsToNat intPart +
      (digitsToNat fracPart : ℚ) / (10 : ℚ) ^ fracPart.length)
    match cs3 with
    | [] => some mant
    | 'e' :: t => parseExp mant t
    | 'E' :: t => parseExp mant t
    | _ => none
where
  /-- Exponent suffix: optional sign and at least one digit. -/
  parseExp (mant : ℚ) (t : List Char) : Option ℚ :=
    let (esgn, t1) :=
      match t with
      | '+' :: u => ((1 : ℤ), u)
      | '-' :: u => ((-1 : ℤ), u)
      | u => ((1 : ℤ), u)
    let eds := t1.takeWhile Char.isDigit
    let t2 := t1.dropWhile Char.isDigit
    if eds.isEmpty || !t2.isEmpty then none
    else some (mant * (10 : ℚ) ^ (esgn * digitsToNat eds))

/-- Digit-filtering fallback of `_norm_lote`: the digits of `s`, or `s`
itself when it has none. -/
def digitFallback (s : String) : String :=
  let digits := s.toList.filter Char.isDigit
  if digits.isEmpty then s else String.mk digits

/-- Model of `_norm_lote` (`none` input = missing/NaN cell): strip, try
`float`; an integral float yields `str(int(f))`; otherwise keep the
digits of the stripped string, or the stripped string itself when it has
no digits. -/
def norm_lote (v : Option String) : Option String :=
  match v with
  | none => none
  | some raw =>
    let s := raw.trim
    match parseFloatQ s with
    | some f => if f.den = 1 then some (toString f.num) else some (digitFallback s)
    | none => some (digitFallback s)

/-- Model of `choose_demo_lote` (inside `_build_chave_concil`): `tipo`
is the record's upper-cased kind, `num`/`arq` the or-empty-stripped
normalised XML and filename identifiers, `demo_keys` the identifiers
known to the statement bank. -/
def choose_demo_lote (tipo num arq : String) (demo_keys : List String) : Option String :=
  if tipo == "RECURSO" then
    if arq != "" && demo_keys.contains arq then some arq
    else if num != "" && arq != "" && num.startsWith arq && demo_keys.contains arq then
      some arq
    else if arq != "" then some arq
    else if num != "" then some num
    else none
  else
    if num != "" && demo_keys.contains num then some num
    else if num != "" && arq != "" && num.startsWith arq && demo_keys.contains arq then
      some arq
    else if arq != "" && demo_keys.contains arq then some arq
    else if num != "" then some num
    else if arq != "" then some arq
    else none

/-- A raw row of the `DemonstrativoAnaliseDeContas` sheet after the
numeric coercion (`to_numeric(...).fillna(0.0)` modelled exactly over
`ℚ`): the raw `Lote` cell (`none` = NaN), the `Competência` cell, and
the three value columns. -/
structure RawRow where
  lote : Option String
  competencia : String
  valor_apresentado : ℚ
  valor_apurado : ℚ
  valor_glosa : ℚ
  deriving Repr, DecidableEq

/-- One aggregated demonstrative row (a row of `demo_agg` /
`st.session_state.demo_bank`). -/
structure DemoRow where
  numero_lote : Option String
  competencia : String
  valor_apresentado : ℚ
  valor_apurado : ℚ
  valor_glosa : ℚ
  linhas : Nat
  deriving Repr, DecidableEq

/-- Grouping key of `ler_demonstrativo_pagto_xlsx`: normalised lot and
stripped period. -/
def keyRaw (r : RawRow) : Option String × String :=
  (norm_lote r.lote, r.competencia.trim)

/-- Grouping key of `_agg_demo`. -/
def keyDemo (r : DemoRow) : Option String × String :=
  (r.numero_lote, r.competencia)

/-- Per-key sum of a `ℚ`-valued field over raw rows. -/
def rawSumAt (f : RawRow → ℚ) (rows : List RawRow) (k : Option String × String) : ℚ :=
  ((rows.filter (fun r => decide (keyRaw r = k))).map f).sum

/-- Per-key row count of `linhas=('numero_lote', 'count')`: rows of the
group whose normalised lot is non-null. -/
def rawCountAt (rows : List RawRow) (k : Option String × String) : Nat :=
  ((rows.filter (fun r => decide (keyRaw r = k))).filter
    (fun r => (norm_lote r.lote).isSome)).length

/-- The distinct keys of a raw-row list (group order abstracted: pandas
sorts group keys, which the per-key claims do not depend on). -/
def rawKeys (rows : List RawRow) : List (Option String × String) :=
  (rows.map keyRaw).dedup

/-- The aggregated row `ler_demonstrativo_pagto_xlsx` builds for one
key. -/
def mkLerRow (rows : List RawRow) (k : Option String × String) : DemoRow :=
  { numero_lote := k.1, competencia := k.2,
    valor_apresentado := rawSumAt (fun r => r.valor_apresentado) rows k,
    valor_apurado := rawSumAt (fun r => r.valor_apurado) rows k,
    valor_glosa := rawSumAt (fun r => r.valor_glosa) rows k,
    linhas := rawCountAt rows k }

/-- The grouping/aggregation performed by `ler_demonstrativo_pagto_xlsx`
on the raw rows of one statement. -/
def ler_agg (rows : List RawRow) : List DemoRow :=
  (rawKeys rows).map (mkLerRow rows)

/-- Per-key sum of a `ℚ`-valued field over aggregated rows. -/
def demoSumAt (f : DemoRow → ℚ) (rows : List DemoRow) (k : Option String × String) : ℚ :=
  ((rows.filter (fun r => decide (keyDemo r = k))).map f).sum

/-- Per-key sum of the `linhas` counts over aggregated rows. -/
def demoLinhasAt (rows : List DemoRow) (k : Option String × String) : Nat :=
  ((rows.filter (fun r => decide (keyDemo r = k))).map (fun r => r.linhas)).sum

/-- The distinct keys of an aggregated-row list. -/
def demoKeys (rows : List DemoRow) : List (Option String × String) :=
  (rows.map keyDemo).dedup

/-- The row `_agg_demo` builds for one key. -/
def mkAggRow (rows : List DemoRow) (k : Option String × String) : DemoRow :=
  { numero_lote := k.1, competencia := k.2,
    valor_apresentado := demoSumAt (fun r => r.valor_apresentado) rows k,
    valor_apurado := demoSumAt (fun r => r.valor_apurado) rows k,
    valor_glosa := demoSumAt (fun r => r.valor_glosa) rows k,
    linhas := demoLinhasAt rows k }

/-- Model of `_agg_demo`: re-group by `(numero_lote, competencia)`,
summing the three values and the row counts. -/
def agg_demo (rows : List DemoRow) : List DemoRow :=
  (demoKeys rows).map (mkAggRow rows)

/-- Model of `_add_to_demo_bank`: concatenate the new statement onto the
bank and re-aggregate. -/
def add_to_demo_bank (bank demo_new : List DemoRow) : List DemoRow :=
  agg_demo (bank ++ demo_new)

/-- Statement-side values joined onto a reconciliation row. -/
structure DemoVals where
  valor_apresentado : ℚ
  valor_apurado : ℚ
  valor_glosa : ℚ
  deriving Repr, DecidableEq

/-- One row of the `_make_baixa_por_lote` output, restricted to the
computed columns the reconciliation claims are about. -/
structure BaixaRow where
  valor_total_xml : ℚ
  apresentado_diff : ℚ
  apresentado_confere : Bool
  liberado_plus_glosa : ℚ
  demonstrativo_confere : Bool
  deriving Repr, DecidableEq

/-- The column computations of `_make_baixa_por_lote` for one row:
`demo` is the left-joined statement aggregate (`none` = unmatched, NaN
columns).  `(x - NaN).fillna(0)` makes the difference 0 on an unmatched
row; the `fillna(0.0)` on the value columns is `Option.getD 0`. -/
def make_baixa_row (valor_total_xml : ℚ) (demo : Option DemoVals) : BaixaRow :=
  let apresentado_diff :=
    match demo with
    | some dv => valor_total_xml - dv.valor_apresentado
    | none => 0
  let liberado_plus_glosa :=
    (demo.map (fun dv => dv.valor_apurado)).getD 0 +
      (demo.map (fun dv => dv.valor_glosa)).getD 0
  { valor_total_xml := valor_total_xml,
    apresentado_diff := apresentado_diff,
    apresentado_confere := decide (|apresentado_diff| ≤ (1 : ℚ) / 100),
    liberado_plus_glosa := liberado_plus_glosa,
    demonstrativo_confere :=
      decide (|(demo.map (fun dv => dv.valor_apresentado)).getD 0 - liberado_plus_glosa| ≤ (1 : ℚ) / 100) }

/-- Spec-side statement of the SADT three-tier fallback, written from
the specification's wording: the declared grand total
(`valorTotal/valorTotalGeral`) if present and strictly positive, else
the itemised sum if strictly positive, else the component sum if
strictly positive, else zero.  A grand-total field that is absent
contributes 0, so "present and strictly positive" is exactly
"parses to a strictly positive value". -/
def sadt_guia_tier_spec (g : GuiaSadt) : ℚ × String :=
  let t1 := dec0 (g.valorTotal.bind fun vt => vt.valorTotalGeral)
  if 0 < t1 then (t1, "valorTotalGeral")
  else if 0 < sum_itens_procedimentos g + sum_itens_outras_desp g then
    (sum_itens_procedimentos g + sum_itens_outras_desp g, "itens (proced+outras)")
  else if 0 < sum_componentes_valorTotal g then
    (sum_componentes_valorTotal g, "componentes_valorTotal")
  else (0, "zero")

/-- C1: per SADT guide the computed total follows the three-tier
priority fallback of the spec (tier 1 the declared grand total when
present and strictly positive, tier 2 the itemised sum when strictly
positive, tier 3 the component sum when strictly positive, else zero);
in particular, when the declared grand-total field is present and
exactly zero and the itemised sum is positive, the itemised sum is used
with the itemised-sum strategy label. -/
theorem sum_sadt_guia_three_tier :
    (∀ g : GuiaSadt, sum_sadt_guia g = sadt_guia_tier_spec g) ∧
    (∀ (g : GuiaSadt) (vt : ValorTotalBloco), g.valorTotal = some vt →
      vt.valorTotalGeral = some 0 →
      0 < sum_itens_procedimentos g + sum_itens_outras_desp g →
      sum_sadt_guia g =
        (sum_itens_procedimentos g + sum_itens_outras_desp g, "itens (proced+outras)")) := by
  constructor
  · intro g
    cases hv : g.valorTotal with
    | none =>
      simp [sum_sadt_guia, sadt_guia_tier_spec, sum_sadt_guia_rest, hv, dec0,
        lt_self_iff_false]
    | some vt =>
      simp only [sum_sadt_guia, sadt_guia_tier_spec, sum_sadt_guia_rest, hv,
        Option.some_bind]
  · intro g vt hvt hvtg hpos
    simp [sum_sadt_guia, sum_sadt_guia_rest, hvt, hvtg, dec0, hpos, lt_irrefl]

/-- A SADT guide whose grand-total field is declared and exactly zero
while its itemised procedure executions sum to 42. -/
def guiaZeroTotal : GuiaSadt :=
  { valorTotal := some ⟨some 0, none, none, none, none, none, none⟩,
    procedimentosExecutados := [⟨some 40, none, none⟩, ⟨none, some 1, some 2⟩],
    outrasDespesas := [] }

/-- Witness for C1: the tier-2 precedence clause applied to
`guiaZeroTotal`. -/
theorem sum_sadt_guia_three_tier_witness :
    sum_sadt_guia guiaZeroTotal =
      (sum_itens_procedimentos guiaZeroTotal + sum_itens_outras_desp guiaZeroTotal,
       "itens (proced+outras)") :=
  sum_sadt_guia_three_tier.2 guiaZeroTotal _ rfl rfl (by with_unfolding_all decide)

/-- Bump of a dict that already holds only the key `s`: counting one
more guide of strategy `s`. -/
theorem foldl_bump_const (s : String) :
    ∀ (gs : List GuiaSadt) (n : Nat), (∀ g ∈ gs, (sum_sadt_guia g).2 = s) →
      gs.foldl (fun m g => bump m (sum_sadt_guia g).2) [(s, n)] = [(s, n + gs.length)] := by
  intro gs
  induction gs with
  | nil => intro n _; simp
  | cons g rest ih =>
    intro n h
    have hg : (sum_sadt_guia g).2 = s := h g (List.mem_cons_self g rest)
    have hb : bump [(s, n)] (sum_sadt_guia g).2 = [(s, n + 1)] := by
      rw [hg]; simp [bump]
    simp only [List.foldl_cons, hb]
    rw [ih (n + 1) (fun g2 hg2 => h g2 (List.mem_cons_of_mem g hg2))]
    simp [List.length_cons]
    omega

/-- When every guide used strategy `s`, the accumulated counts are a
singleton holding `s` with the number of guides. -/
theorem strategyCounts_const (gs : List GuiaSadt) (s : String)
    (h : ∀ g ∈ gs, (sum_sadt_guia g).2 = s) (hne : gs ≠ []) :
    strategyCounts gs = [(s, gs.length)] := by
  cases gs with
  | nil => exact absurd rfl hne
  | cons g rest =>
    have hg : (sum_sadt_guia g).2 = s := h g (List.mem_cons_self g rest)
    have hb : bump [] (sum_sadt_guia g).2 = [(s, 1)] := by rw [hg]; rfl
    unfold strategyCounts
    simp only [List.foldl_cons, hb]
    rw [foldl_bump_const s rest 1 (fun g2 hg2 => h g2 (List.mem_cons_of_mem g hg2))]
    simp [List.length_cons]
    omega

/-- The bumped key is among the keys of the bumped dict. -/
theorem mem_fst_bump_self (m : List (String × Nat)) (s : String) :
    s ∈ (bump m s).map Prod.fst := by
  induction m with
  | nil => simp [bump]
  | cons p rest ih =>
    by_cases hp : p.1 = s
    · simp [bump, hp]
    · simpa [bump, hp] using Or.inr ih

/-- Bumping preserves the existing keys. -/
theorem mem_fst_bump_of_mem (m : List (String × Nat)) (s t : String)
    (h : t ∈ m.map Prod.fst) : t ∈ (bump m s).map Prod.fst := by
  induction m with
  | nil => simp at h
  | cons p rest ih =>
    obtain ⟨k, v⟩ := p
    rw [List.map_cons, List.mem_cons] at h
    by_cases hp : k = s
    · have hb : bump ((k, v) :: rest) s = (k, v + 1) :: rest := by simp [bump, hp]
      rw [hb, List.map_cons, List.mem_cons]
      exact h
    · have hb : bump ((k, v) :: rest) s = (k, v) :: bump rest s := by simp [bump, hp]
      rw [hb, List.map_cons, List.mem_cons]
      rcases h with h | h
      · exact Or.inl h
      · exact Or.inr (ih h)

/-- Folding more guides into the strategy dict preserves its keys. -/
theorem mem_fst_foldl_of_mem (gs : List GuiaSadt) :
    ∀ (m : List (String × Nat)) (t : String), t ∈ m.map Prod.fst →
      t ∈ ((gs.foldl (fun m g => bump m (sum_sadt_guia g).2) m).map Prod.fst) := by
  induction gs with
  | nil => intro m t h; simpa using h
  | cons g rest ih =>
    intro m t h
    simpa using ih _ t (mem_fst_bump_of_mem m (sum_sadt_guia g).2 t h)

/-- A guide of the folded list has its strategy among the keys. -/
theorem strat_mem_foldl (gs : List GuiaSadt) (g : GuiaSadt) (hg : g ∈ gs) :
    ∀ m : List (String × Nat),
      (sum_sadt_guia g).2 ∈ ((gs.foldl (fun m g => bump m (sum_sadt_guia g).2) m).map Prod.fst) := by
  induction gs with
  | nil => simp at hg
  | cons g2 rest ih =>
    intro m
    simp only [List.foldl_cons]
    rcases List.mem_cons.mp hg with h | h
    · subst h
      exact mem_fst_foldl_of_mem rest _ _ (mem_fst_bump_self m (sum_sadt_guia g).2)
    · exact ih h _

/-- A guide's strategy occurs among the accumulated strategy keys. -/
theorem strat_mem_strategyCounts (gs : List GuiaSadt) (g : GuiaSadt) (hg : g ∈ gs) :
    (sum_sadt_guia g).2 ∈ (strategyCounts gs).map Prod.fst :=
  strat_mem_foldl gs g hg []

/-- The count the strategy dict records for a key. -/
def valOf (m : List (String × Nat)) (k : String) : Nat :=
  ((m.filter (fun p => p.1 == k)).map Prod.snd).sum

/-- Bumping strategy `s` raises the recorded count of `s` by one and
leaves every other count unchanged. -/
theorem valOf_bump (m : List (String × Nat)) (s k : String) :
    valOf (bump m s) k = valOf m k + (if s == k then 1 else 0) := by
  induction m with
  | nil => by_cases h : s = k <;> simp [valOf, bump, h]
  | cons p rest ih =>
    by_cases hp : p.1 = s
    · by_cases hk : s = k
      · simp [valOf, bump, hp, hk, List.filter_cons] at ih ⊢
        omega
      · have : ¬ (p.1 = k) := by rw [hp]; exact hk
        simp [valOf, bump, hp, hk, this, List.filter_cons]
    · by_cases hpk : p.1 = k
      · simp only [valOf, bump, if_neg hp, List.filter_cons] at ih ⊢
        simp [hpk] at ih ⊢
        omega
      · simp only [valOf, bump, if_neg hp, List.filter_cons] at ih ⊢
        simp [hpk] at ih ⊢
        exact ih

/-- Folding guides into the dict adds, per key, the number of folded
guides using that strategy. -/
theorem valOf_foldl (gs : List GuiaSadt) :
    ∀ (m : List (String × Nat)) (k : String),
      valOf (gs.foldl (fun m g => bump m (sum_sadt_guia g).2) m) k =
        valOf m k + (gs.filter (fun g => (sum_sadt_guia g).2 == k)).length := by
  induction gs with
  | nil => intro m k; simp
  | cons g rest ih =>
    intro m k
    simp only [List.foldl_cons, List.filter_cons]
    rw [ih]
    rw [valOf_bump]
    by_cases h : (sum_sadt_guia g).2 = k
    all_goals simp [h]
    all_goals omega

/-- SADT guide resolving by tier 1 with declared grand total 300.00. -/
def guiaTier1 : GuiaSadt :=
  { valorTotal := some ⟨some 300, none, none, none, none, none, none⟩,
    procedimentosExecutados := [], outrasDespesas := [] }

/-- SADT guide resolving by tier 2 with itemised total 150.50. -/
def guiaTier2 : GuiaSadt :=
  { valorTotal := none,
    procedimentosExecutados := [⟨some (301 / 2), none, none⟩],
    outrasDespesas := [] }

/-- SADT document with one tier-1 guide and one tier-2 guide. -/
def docMisto : Doc :=
  { tipoTransacao := none, hasGuiaRecursoGlosa := false,
    loteGuiasNumeroLote := some "100", recursoNumeroLote := none,
    guiasConsulta := [], guiasSadt := [guiaTier1, guiaTier2], recursoGuiaCount := 0,
    valorTotalRecursado := none, numeroProtocolo := none }

/-- SADT document with two tier-1 guides (a single strategy). -/
def docUniforme : Doc :=
  { tipoTransacao := none, hasGuiaRecursoGlosa := false,
    loteGuiasNumeroLote := some "100", recursoNumeroLote := none,
    guiasConsulta := [], guiasSadt := [guiaTier1, guiaTier1], recursoGuiaCount := 0,
    valorTotalRecursado := none, numeroProtocolo := none }

/-- C2: the per-document strategy label is the single strategy name
when every guide used the same strategy, otherwise the composite mixed
label over the per-strategy guide counts sorted by descending count and
alphabetically for ties; the count recorded for each strategy is the
number of guides that used it, and the sorted item list is sorted for
that order.  In particular the document with one tier-1 guide (300.00)
and one tier-2 guide (150.50) totals 450.50 with the mixed label naming
the itemised-sum strategy before the declared-grand-total strategy,
each with count 1. -/
theorem sum_sadt_strategy_label :
    (∀ (d : Doc) (s : String), d.guiasSadt ≠ [] →
      (∀ g ∈ d.guiasSadt, (sum_sadt_guia g).2 = s) → (sum_sadt d).2.2 = s) ∧
    (∀ (d : Doc) (g1 g2 : GuiaSadt), g1 ∈ d.guiasSadt → g2 ∈ d.guiasSadt →
      (sum_sadt_guia g1).2 ≠ (sum_sadt_guia g2).2 →
      (sum_sadt d).2.2 = mistoLabel (strategyCounts d.guiasSadt)) ∧
    (∀ (gs : List GuiaSadt) (k : String),
      valOf (strategyCounts gs) k =
        (gs.filter (fun g => (sum_sadt_guia g).2 == k)).length) ∧
    (∀ m : List (String × Nat), List.Sorted strategyOrder (sortCounts m)) ∧
    sum_sadt docMisto =
      (2, 901 / 2, "misto: itens (proced+outras)=1, valorTotalGeral=1") := by
  refine ⟨?_, ?_, ?_, ?_, ?_⟩
  · intro d s hne h
    have hc := strategyCounts_const d.guiasSadt s h hne
    have hie : d.guiasSadt.isEmpty = false := by
      cases hgs : d.guiasSadt with
      | nil => exact absurd hgs hne
      | cons a l => rfl
    simp [sum_sadt, hie, hc]
  · intro d g1 g2 h1 h2 hne
    have hm1 := strat_mem_strategyCounts d.guiasSadt g1 h1
    have hm2 := strat_mem_strategyCounts d.guiasSadt g2 h2
    have hlen : (strategyCounts d.guiasSadt).length ≠ 1 := by
      intro hl
      obtain ⟨p, hp⟩ := List.length_eq_one.mp hl
      rw [hp] at hm1 hm2
      simp at hm1 hm2
      exact hne (hm1.trans hm2.symm)
    have hnil : d.guiasSadt ≠ [] := List.ne_nil_of_mem h1
    have hie : d.guiasSadt.isEmpty = false := by
      cases hgs : d.guiasSadt with
      | nil => exact absurd hgs hnil
      | cons a l => rfl
    simp [sum_sadt, hie, hlen]
  · intro gs k
    have := valOf_foldl gs [] k
    simpa [strategyCounts, valOf] using this
  · intro m
    exact List.sorted_insertionSort strategyOrder m
  · with_unfolding_all rfl

/-- Witness for C2: the single-strategy clause at `docUniforme` and the
mixed clause at `docMisto`. -/
theorem sum_sadt_strategy_label_witness :
    (sum_sadt docUniforme).2.2 = "valorTotalGeral" ∧
    (sum_sadt docMisto).2.2 = mistoLabel (strategyCounts docMisto.guiasSadt) :=
  ⟨sum_sadt_strategy_label.1 docUniforme "valorTotalGeral"
      (by with_unfolding_all decide) (by with_unfolding_all decide),
   sum_sadt_strategy_label.2.1 docMisto guiaTier1 guiaTier2
      (by with_unfolding_all decide) (by with_unfolding_all decide)
      (by with_unfolding_all decide)⟩

/-- C3: for non-appeal records the reconciliation key chooser prefers
the XML identifier when known; else the filename identifier when it is
known and the XML identifier starts with it; else the filename
identifier when known; else it falls back to the XML identifier, then
the filename identifier, then nothing (an empty normalised identifier
counts as absent).  In particular, with XML identifier `48100` unknown
and filename identifier `481` known and a prefix of it, it chooses
`481`. -/
theorem choose_demo_lote_non_recurso :
    (∀ (tipo num arq : String) (keys : List String), tipo ≠ "RECURSO" →
      (num ≠ "" → num ∈ keys → choose_demo_lote tipo num arq keys = some num) ∧
      (num ∉ keys → num ≠ "" → arq ≠ "" → num.startsWith arq = true → arq ∈ keys →
        choose_demo_lote tipo num arq keys = some arq) ∧
      (num ∉ keys → (num = "" ∨ num.startsWith arq = false) → arq ≠ "" → arq ∈ keys →
        choose_demo_lote tipo num arq keys = some arq) ∧
      (num ∉ keys → arq ∉ keys → num ≠ "" →
        choose_demo_lote tipo num arq keys = some num) ∧
      (num ∉ keys → arq ∉ keys → num = "" → arq ≠ "" →
        choose_demo_lote tipo num arq keys = some arq) ∧
      (num = "" → arq = "" → choose_demo_lote tipo num arq keys = none)) ∧
    choose_demo_lote "SADT" "48100" "481" ["481"] = some "481" := by
  constructor
  · intro tipo num arq keys htipo
    have ht : (tipo == "RECURSO") = false := beq_eq_false_iff_ne.mpr htipo
    refine ⟨?_, ?_, ?_, ?_, ?_, ?_⟩
    · intro h1 h2
      simp [choose_demo_lote, ht, List.contains, h1, h2]
    · intro h1 h2 h3 h4 h5
      simp [choose_demo_lote, ht, List.contains, h1, h2, h3, h4, h5]
    · intro h1 h2 h3 h4
      rcases h2 with h2 | h2 <;>
        simp [choose_demo_lote, ht, List.contains, h1, h2, h3, h4]
    · intro h1 h2 h3
      simp [choose_demo_lote, ht, List.contains, h1, h2, h3]
    · intro h1 h2 h3 h4
      simp [choose_demo_lote, ht, List.contains, h1, h2, h3, h4]
    · intro h1 h2
      simp [choose_demo_lote, ht, h1, h2]
  · with_unfolding_all rfl

/-- Witness for C3: the prefix-match clause at the scenario of the
claim (`48100` unknown, `481` known). -/
theorem choose_demo_lote_non_recurso_witness :
    choose_demo_lote "SADT" "48100" "481" ["481"] = some "481" :=
  ((choose_demo_lote_non_recurso.1 "SADT" "48100" "481" ["481"]
      (by decide)).2.1) (by decide) (by decide) (by decide)
    (by with_unfolding_all decide) (by decide)

/-- C4: for appeal (RECURSO) records the chooser prefers the filename
identifier when known; else (prefix clause) the filename identifier
when the XML identifier starts with it and it is known; else it falls
back to the filename identifier, then the XML identifier, then nothing.
In particular a file named `LOTE 132238 Recurso X.xml` with XML batch
identifier `92400`, where the statement knows `132238` but not `92400`,
resolves to `132238` end to end (filename extraction and normalisation
included). -/
theorem choose_demo_lote_recurso :
    (∀ (num arq : String) (keys : List String),
      (arq ≠ "" → arq ∈ keys → choose_demo_lote "RECURSO" num arq keys = some arq) ∧
      (num ≠ "" → arq ≠ "" → num.startsWith arq = true → arq ∈ keys →
        choose_demo_lote "RECURSO" num arq keys = some arq) ∧
      (arq ∉ keys → arq ≠ "" → choose_demo_lote "RECURSO" num arq keys = some arq) ∧
      (arq = "" → num ≠ "" → choose_demo_lote "RECURSO" num arq keys = some num) ∧
      (arq = "" → num = "" → choose_demo_lote "RECURSO" num arq keys = none)) ∧
    choose_demo_lote "RECURSO" (orEmptyTrim (norm_lote (some "92400")))
      (orEmptyTrim (norm_lote (extract_lote_from_filename "LOTE 132238 Recurso X.xml")))
      ["132238"] = some "132238" := by
  constructor
  · intro num arq keys
    refine ⟨?_, ?_, ?_, ?_, ?_⟩
    · intro h1 h2
      simp [choose_demo_lote, List.contains, h1, h2]
    · intro h1 h2 h3 h4
      simp [choose_demo_lote, List.contains, h1, h2, h3, h4]
    · intro h1 h2
      simp [choose_demo_lote, List.contains, h1, h2]
    · intro h1 h2
      simp [choose_demo_lote, List.contains, h1, h2]
    · intro h1 h2
      simp [choose_demo_lote, h1, h2]
  · with_unfolding_all rfl

/-- Witness for C4: the known-filename clause at the claim's scenario
(`132238` known to the statement bank). -/
theorem choose_demo_lote_recurso_witness :
    choose_demo_lote "RECURSO" "92400" "132238" ["132238"] = some "132238" :=
  (choose_demo_lote_recurso.1 "92400" "132238" ["132238"]).1 (by decide) (by decide)

/-- C5: the lot normaliser returns the integer text when the (stripped)
string parses as a float with no fractional part, otherwise the string
with all non-digit characters removed, or the stripped string itself
when it has no digits; a missing input stays absent and an empty input
yields no identifier.  In particular `000123`, `123` and `123.0` all
normalise to `123`. -/
theorem norm_lote_spec :
    (∀ (s : String) (q : ℚ), parseFloatQ s.trim = some q → q.den = 1 →
      norm_lote (some s) = some (toString q.num)) ∧
    (∀ (s : String) (q : ℚ), parseFloatQ s.trim = some q → q.den ≠ 1 →
      norm_lote (some s) = some (digitFallback s.trim)) ∧
    (∀ s : String, parseFloatQ s.trim = none →
      norm_lote (some s) = some (digitFallback s.trim)) ∧
    (∀ s : String, s.toList.filter Char.isDigit = [] → digitFallback s = s) ∧
    norm_lote none = none ∧
    orEmptyTrim (norm_lote (some "")) = "" ∧
    norm_lote (some "000123") = some "123" ∧
    norm_lote (some "123") = some "123" ∧
    norm_lote (some "123.0") = some "123" := by
  refine ⟨?_, ?_, ?_, ?_, rfl, ?_, ?_, ?_, ?_⟩
  · intro s q h hq
    simp [norm_lote, h, hq]
  · intro s q h hq
    simp [norm_lote, h, hq]
  · intro s h
    simp [norm_lote, h]
  · intro s h
    unfold digitFallback
    rw [h]
    rfl
  · with_unfolding_all rfl
  · with_unfolding_all rfl
  · with_unfolding_all rfl
  · with_unfolding_all rfl

/-- Witness for C5: the integral-float clause applied to `123.0`. -/
theorem norm_lote_spec_witness :
    norm_lote (some "123.0") = some (toString (123 : ℚ).num) :=
  norm_lote_spec.1 "123.0" 123 (by with_unfolding_all rfl) (by with_unfolding_all rfl)

/-- Helper: a non-empty list is not `isEmpty`. -/
theorem isEmpty_false_of_ne_nil {α : Type} (l : List α) (h : l ≠ []) :
    l.isEmpty = false := by
  cases l with
  | nil => exact absurd rfl h
  | cons a t => rfl

/-- An appeal document that also carries consultation and SADT guide
elements, a declared protocol and its batch identifier only in the
appeal block. -/
def docRecursoMixto : Doc :=
  { tipoTransacao := some "recurso_glosa", hasGuiaRecursoGlosa := true,
    loteGuiasNumeroLote := none, recursoNumeroLote := some "92400",
    guiasConsulta := [⟨some 10⟩], guiasSadt := [guiaTier1], recursoGuiaCount := 2,
    valorTotalRecursado := some 500, numeroProtocolo := some "P1" }

/-- C6: the classifier assigns exactly one of the four kinds, testing
in order with first match winning: Appeal when the transaction type
equals RECURSO_GLOSA case-insensitively or an appeal block is present;
else Consultation when a consultation guide exists; else SADT when an
SADT guide exists; else Unknown.  A document carrying an appeal block
together with consultation or SADT guides is classified Appeal, and
the summary record's kind is the classified kind. -/
theorem classify_kind_priority :
    (∀ d : Doc, tipoOf d = "RECURSO" ∨ tipoOf d = "CONSULTA" ∨ tipoOf d = "SADT" ∨
      tipoOf d = "DESCONHECIDO") ∧
    (∀ d : Doc, (asciiUpper (orEmptyTrim d.tipoTransacao) = "RECURSO_GLOSA" ∨
      d.hasGuiaRecursoGlosa = true) → tipoOf d = "RECURSO") ∧
    (∀ d : Doc, is_recurso d = false → d.guiasConsulta ≠ [] → tipoOf d = "CONSULTA") ∧
    (∀ d : Doc, is_recurso d = false → d.guiasConsulta = [] → d.guiasSadt ≠ [] →
      tipoOf d = "SADT") ∧
    (∀ d : Doc, is_recurso d = false → d.guiasConsulta = [] → d.guiasSadt = [] →
      tipoOf d = "DESCONHECIDO") ∧
    (∀ d : Doc, d.hasGuiaRecursoGlosa = true →
      (d.guiasConsulta ≠ [] ∨ d.guiasSadt ≠ []) → tipoOf d = "RECURSO") ∧
    (∀ (d : Doc) (n : String) (r : Resumo), parse_root d n = Except.ok r →
      r.tipo = tipoOf d) := by
  refine ⟨?_, ?_, ?_, ?_, ?_, ?_, ?_⟩
  · intro d
    unfold tipoOf
    split_ifs <;> simp
  · intro d h
    have hr : is_recurso d = true := by
      rcases h with h | h <;> simp [is_recurso, h]
    simp [tipoOf, hr]
  · intro d h1 h2
    simp [tipoOf, h1, is_consulta, isEmpty_false_of_ne_nil _ h2]
  · intro d h1 h2 h3
    simp [tipoOf, h1, is_consulta, is_sadt, h2, isEmpty_false_of_ne_nil _ h3]
  · intro d h1 h2 h3
    simp [tipoOf, h1, is_consulta, is_sadt, h2, h3]
  · intro d h1 _
    have hr : is_recurso d = true := by simp [is_recurso, h1]
    simp [tipoOf, hr]
  · intro d n r h
    unfold parse_root at h
    cases hg : get_numero_lote d with
    | error e => rw [hg] at h; exact absurd h (by simp)
    | ok nl =>
      rw [hg] at h
      cases h1 : is_recurso d with
      | true =>
        simp only [h1, if_true] at h
        injection h with h
        subst h
        simp [tipoOf, h1]
      | false =>
        simp only [h1, Bool.false_eq_true, if_false] at h
        cases h2 : is_consulta d with
        | true =>
          simp only [h2, if_true] at h
          injection h with h
          subst h
          simp [tipoOf, h1, h2]
        | false =>
          simp only [h2, Bool.false_eq_true, if_false] at h
          injection h with h
          subst h
          simp [tipoOf, h1, h2]

/-- Witness for C6: the appeal-precedence clause at `docRecursoMixto`,
which carries an appeal block and both other guide kinds. -/
theorem classify_kind_priority_witness : tipoOf docRecursoMixto = "RECURSO" :=
  classify_kind_priority.2.2.2.2.2.1 docRecursoMixto rfl
    (Or.inl (List.cons_ne_nil _ _))

/-- Filtering a duplicate-free list for one value leaves exactly that
value when present. -/
theorem filter_eq_of_nodup {β : Type} [DecidableEq β] :
    ∀ (l : List β) (k : β), l.Nodup →
      l.filter (fun x => decide (x = k)) = if k ∈ l then [k] else [] := by
  intro l
  induction l with
  | nil => intro k _; simp
  | cons a t ih =>
    intro k hnd
    rcases List.nodup_cons.mp hnd with ⟨hat, hts⟩
    by_cases hak : a = k
    · subst hak
      have ht : t.filter (fun x => decide (x = a)) = [] :=
        List.filter_eq_nil_iff.mpr (fun x hx => by
          simp only [decide_eq_true_eq]
          intro he
          exact hat (he ▸ hx))
      simp [List.filter_cons, ht]
    · have := ih k hts
      by_cases hk : k ∈ t <;>
        simp [List.filter_cons, hak, hk, this, Ne.symm hak]

/-- The built aggregate row sits at its own key. -/
theorem keyDemo_mkAggRow (xs : List DemoRow) (k : Option String × String) :
    keyDemo (mkAggRow xs k) = k := rfl

/-- The built statement row sits at its own key. -/
theorem keyDemo_mkLerRow (rs : List RawRow) (k : Option String × String) :
    keyDemo (mkLerRow rs k) = k := rfl

/-- Rows never carry a key outside the key list. -/
theorem demo_filter_eq_nil (xs : List DemoRow) (k : Option String × String)
    (h : k ∉ xs.map keyDemo) :
    xs.filter (fun r => decide (keyDemo r = k)) = [] :=
  List.filter_eq_nil_iff.mpr (fun r hr => by
    simp only [decide_eq_true_eq]
    intro he
    exact h (he ▸ List.mem_map_of_mem keyDemo hr))

/-- Raw rows never carry a key outside the key list. -/
theorem raw_filter_eq_nil (rs : List RawRow) (k : Option String × String)
    (h : k ∉ rs.map keyRaw) :
    rs.filter (fun r => decide (keyRaw r = k)) = [] :=
  List.filter_eq_nil_iff.mpr (fun r hr => by
    simp only [decide_eq_true_eq]
    intro he
    exact h (he ▸ List.mem_map_of_mem keyRaw hr))

/-- Per-key filtering of the re-aggregated store keeps exactly the one
row built for that key when the key occurs. -/
theorem filter_agg_demo (xs : List DemoRow) (k : Option String × String) :
    (agg_demo xs).filter (fun r => decide (keyDemo r = k)) =
      if k ∈ demoKeys xs then [mkAggRow xs k] else [] := by
  unfold agg_demo
  rw [List.filter_map]
  have hp : ((fun r => decide (keyDemo r = k)) ∘ mkAggRow xs) =
      (fun k2 => decide (k2 = k)) := by
    funext k2
    simp [keyDemo_mkAggRow]
  rw [hp, filter_eq_of_nodup (demoKeys xs) k (List.nodup_dedup _)]
  by_cases hk : k ∈ demoKeys xs <;> simp [hk]

/-- Per-key filtering of an aggregated statement keeps exactly the one
row built for that key when the key occurs. -/
theorem filter_ler_agg (rs : List RawRow) (k : Option String × String) :
    (ler_agg rs).filter (fun r => decide (keyDemo r = k)) =
      if k ∈ rawKeys rs then [mkLerRow rs k] else [] := by
  unfold ler_agg
  rw [List.filter_map]
  have hp : ((fun r => decide (keyDemo r = k)) ∘ mkLerRow rs) =
      (fun k2 => decide (k2 = k)) := by
    funext k2
    simp [keyDemo_mkLerRow]
  rw [hp, filter_eq_of_nodup (rawKeys rs) k (List.nodup_dedup _)]
  by_cases hk : k ∈ rawKeys rs <;> simp [hk]

/-- Re-aggregating by `_agg_demo` preserves the per-key total of any
value field whose aggregate row carries that total. -/
theorem demoSumAt_agg_demo (f : DemoRow → ℚ)
    (hf : ∀ xs k, f (mkAggRow xs k) = demoSumAt f xs k) (xs : List DemoRow)
    (k : Option String × String) :
    demoSumAt f (agg_demo xs) k = demoSumAt f xs k := by
  unfold demoSumAt
  rw [filter_agg_demo]
  by_cases hk : k ∈ demoKeys xs
  · simp only [hk, if_true, List.map_cons, List.map_nil, List.sum_cons, List.sum_nil,
      add_zero]
    exact hf xs k
  · have hnk : k ∉ xs.map keyDemo := fun h => hk (List.mem_dedup.mpr h)
    rw [demo_filter_eq_nil xs k hnk]
    simp [hk]

/-- Re-aggregating by `_agg_demo` preserves the per-key row count. -/
theorem demoLinhasAt_agg_demo (xs : List DemoRow) (k : Option String × String) :
    demoLinhasAt (agg_demo xs) k = demoLinhasAt xs k := by
  unfold demoLinhasAt
  rw [filter_agg_demo]
  by_cases hk : k ∈ demoKeys xs
  · simp only [hk, if_true, List.map_cons, List.map_nil, List.sum_cons, List.sum_nil,
      add_zero]
    rfl
  · have hnk : k ∉ xs.map keyDemo := fun h => hk (List.mem_dedup.mpr h)
    rw [demo_filter_eq_nil xs k hnk]
    simp [hk]

/-- The per-key total of an aggregated statement equals the per-key
total over its raw rows. -/
theorem demoSumAt_ler_agg (f : DemoRow → ℚ) (g : RawRow → ℚ)
    (hf : ∀ rs k, f (mkLerRow rs k) = rawSumAt g rs k) (rs : List RawRow)
    (k : Option String × String) :
    demoSumAt f (ler_agg rs) k = rawSumAt g rs k := by
  unfold demoSumAt
  rw [filter_ler_agg]
  by_cases hk : k ∈ rawKeys rs
  · simp only [hk, if_true, List.map_cons, List.map_nil, List.sum_cons, List.sum_nil,
      add_zero]
    exact hf rs k
  · have hnk : k ∉ rs.map keyRaw := fun h => hk (List.mem_dedup.mpr h)
    unfold rawSumAt
    rw [raw_filter_eq_nil rs k hnk]
    simp [hk]

/-- The per-key row count of an aggregated statement equals the per-key
count over its raw rows. -/
theorem demoLinhasAt_ler_agg (rs : List RawRow) (k : Option String × String) :
    demoLinhasAt (ler_agg rs) k = rawCountAt rs k := by
  unfold demoLinhasAt
  rw [filter_ler_agg]
  by_cases hk : k ∈ rawKeys rs
  · simp only [hk, if_true, List.map_cons, List.map_nil, List.sum_cons, List.sum_nil,
      add_zero]
    rfl
  · have hnk : k ∉ rs.map keyRaw := fun h => hk (List.mem_dedup.mpr h)
    unfold rawCountAt
    rw [raw_filter_eq_nil rs k hnk]
    simp [hk]

/-- Per-key value totals split over concatenation of stores. -/
theorem demoSumAt_append (f : DemoRow → ℚ) (xs ys : List DemoRow)
    (k : Option String × String) :
    demoSumAt f (xs ++ ys) k = demoSumAt f xs k + demoSumAt f ys k := by
  simp [demoSumAt]

/-- Per-key row counts split over concatenation of stores. -/
theorem demoLinhasAt_append (xs ys : List DemoRow) (k : Option String × String) :
    demoLinhasAt (xs ++ ys) k = demoLinhasAt xs k + demoLinhasAt ys k := by
  simp [demoLinhasAt]

/-- Per-key raw value totals split over concatenation of statements. -/
theorem rawSumAt_append (g : RawRow → ℚ) (r1 r2 : List RawRow)
    (k : Option String × String) :
    rawSumAt g (r1 ++ r2) k = rawSumAt g r1 k + rawSumAt g r2 k := by
  simp [rawSumAt]

/-- Per-key raw row counts split over concatenation of statements. -/
theorem rawCountAt_append (r1 r2 : List RawRow) (k : Option String × String) :
    rawCountAt (r1 ++ r2) k = rawCountAt r1 k + rawCountAt r2 k := by
  simp [rawCountAt]

/-- Rows of a first statement: presented 1000 for batch 200, period
2025-01. -/
def demoRows1 : List RawRow := [⟨some "200", "2025-01", 1000, 0, 0⟩]

/-- Rows of a second statement: presented 500 for the same key. -/
def demoRows2 : List RawRow := [⟨some "200", "2025-01", 500, 0, 0⟩]

/-- C7: demonstrative accumulation is additive — merging two parsed
statements into the (initially empty) bank and re-aggregating yields,
for every (normalised batch identifier, period) key, the same summed
presented, approved and withheld values and row counts as aggregating
the concatenation of their raw rows.  In particular rows summing to
presented 1000 merged with rows summing to presented 500 for batch
`200`, period `2025-01`, yield presented 1500 for that key. -/
theorem demo_bank_additive :
    (∀ (r1 r2 : List RawRow) (k : Option String × String),
      demoSumAt (fun r => r.valor_apresentado)
          (add_to_demo_bank (add_to_demo_bank [] (ler_agg r1)) (ler_agg r2)) k =
        demoSumAt (fun r => r.valor_apresentado) (ler_agg (r1 ++ r2)) k ∧
      demoSumAt (fun r => r.valor_apurado)
          (add_to_demo_bank (add_to_demo_bank [] (ler_agg r1)) (ler_agg r2)) k =
        demoSumAt (fun r => r.valor_apurado) (ler_agg (r1 ++ r2)) k ∧
      demoSumAt (fun r => r.valor_glosa)
          (add_to_demo_bank (add_to_demo_bank [] (ler_agg r1)) (ler_agg r2)) k =
        demoSumAt (fun r => r.valor_glosa) (ler_agg (r1 ++ r2)) k ∧
      demoLinhasAt
          (add_to_demo_bank (add_to_demo_bank [] (ler_agg r1)) (ler_agg r2)) k =
        demoLinhasAt (ler_agg (r1 ++ r2)) k) ∧
    demoSumAt (fun r => r.valor_apresentado)
      (add_to_demo_bank (add_to_demo_bank [] (ler_agg demoRows1)) (ler_agg demoRows2))
      (some "200", "2025-01") = 1500 := by
  have main : ∀ (f : DemoRow → ℚ) (g : RawRow → ℚ),
      (∀ xs k, f (mkAggRow xs k) = demoSumAt f xs k) →
      (∀ rs k, f (mkLerRow rs k) = rawSumAt g rs k) →
      ∀ (r1 r2 : List RawRow) (k : Option String × String),
        demoSumAt f
            (add_to_demo_bank (add_to_demo_bank [] (ler_agg r1)) (ler_agg r2)) k =
          demoSumAt f (ler_agg (r1 ++ r2)) k := by
    intro f g hfa hfl r1 r2 k
    unfold add_to_demo_bank
    rw [demoSumAt_agg_demo f hfa, demoSumAt_append, demoSumAt_agg_demo f hfa,
      List.nil_append, demoSumAt_ler_agg f g hfl, demoSumAt_ler_agg f g hfl,
      demoSumAt_ler_agg f g hfl, rawSumAt_append]
  constructor
  · intro r1 r2 k
    refine ⟨?_, ?_, ?_, ?_⟩
    · exact main (fun r => r.valor_apresentado) (fun r => r.valor_apresentado)
        (fun xs k => rfl) (fun rs k => rfl) r1 r2 k
    · exact main (fun r => r.valor_apurado) (fun r => r.valor_apurado)
        (fun xs k => rfl) (fun rs k => rfl) r1 r2 k
    · exact main (fun r => r.valor_glosa) (fun r => r.valor_glosa)
        (fun xs k => rfl) (fun rs k => rfl) r1 r2 k
    · unfold add_to_demo_bank
      rw [demoLinhasAt_agg_demo, demoLinhasAt_append, demoLinhasAt_agg_demo,
        List.nil_append, demoLinhasAt_ler_agg, demoLinhasAt_ler_agg,
        demoLinhasAt_ler_agg, rawCountAt_append]
  · with_unfolding_all rfl

/-- C8: a document declaring no batch identifier in either the
guide-batch block or the appeal block fails with the parsing error, and
batch parsing returns one result per input where a failed document's
slot is the error record (empty batch identifier, kind DESCONHECIDO,
zero counts and totals, the error description) while every other
document is parsed normally. -/
theorem parse_errors_isolated :
    (∀ (d : Doc) (n : String), loteText d.loteGuiasNumeroLote = none →
      loteText d.recursoNumeroLote = none →
      parse_root d n = Except.error "numeroLote não encontrado no XML.") ∧
    (∀ inputs : List (String × Doc), (parse_many_xmls inputs).length = inputs.length) ∧
    (∀ (inputs : List (String × Doc)) (i : Nat) (n : String) (d : Doc) (e : String),
      inputs[i]? = some (n, d) → parse_root d n = Except.error e →
      (parse_many_xmls inputs)[i]? = some
        { arquivo := n, numero_lote := "", tipo := "DESCONHECIDO", qtde_guias := 0,
          valor_total := 0, valor_glosado := 0, valor_liberado := 0,
          estrategia_total := "erro", protocolo := none, erro := some e }) ∧
    (∀ (inputs : List (String × Doc)) (i : Nat) (n : String) (d : Doc) (r : Resumo),
      inputs[i]? = some (n, d) → parse_root d n = Except.ok r →
      (parse_many_xmls inputs)[i]? = some r) := by
  refine ⟨?_, ?_, ?_, ?_⟩
  · intro d n h1 h2
    simp [parse_root, get_numero_lote, h1, h2]
  · intro inputs
    simp [parse_many_xmls]
  · intro inputs i n d e h hp
    unfold parse_many_xmls
    rw [List.getElem?_map, h]
    simp [hp, erroResumo]
  · intro inputs i n d r h hp
    unfold parse_many_xmls
    rw [List.getElem?_map, h]
    simp [hp]

/-- The mixed-strategy SADT document with its batch identifier removed:
a document parse_many must report as an error slot. -/
def docSemLote : Doc :=
  { tipoTransacao := none, hasGuiaRecursoGlosa := false,
    loteGuiasNumeroLote := none, recursoNumeroLote := none,
    guiasConsulta := [], guiasSadt := [guiaTier1, guiaTier2], recursoGuiaCount := 0,
    valorTotalRecursado := none, numeroProtocolo := none }

/-- The summary record of the mixed-strategy SADT document. -/
def resumoMisto : Resumo :=
  { arquivo := "a.xml", numero_lote := "100", tipo := "SADT", qtde_guias := 2,
    valor_total := 901 / 2, valor_glosado := 0, valor_liberado := 0,
    estrategia_total := "misto: itens (proced+outras)=1, valorTotalGeral=1",
    protocolo := none, erro := none }

/-- Witness for C8: a two-document batch in which the first document
has no batch identifier; its slot is the error record and the second
document still parses normally. -/
theorem parse_errors_isolated_witness :
    parse_root docSemLote "bad.xml" =
      Except.error "numeroLote não encontrado no XML." ∧
    (parse_many_xmls [("bad.xml", docSemLote), ("a.xml", docMisto)])[0]? = some
      { arquivo := "bad.xml", numero_lote := "", tipo := "DESCONHECIDO", qtde_guias := 0,
        valor_total := 0, valor_glosado := 0, valor_liberado := 0,
        estrategia_total := "erro", protocolo := none,
        erro := some "numeroLote não encontrado no XML." } ∧
    (parse_many_xmls [("bad.xml", docSemLote), ("a.xml", docMisto)])[1]? =
      some resumoMisto :=
  ⟨parse_errors_isolated.1 docSemLote "bad.xml" rfl rfl,
   parse_errors_isolated.2.2.1 [("bad.xml", docSemLote), ("a.xml", docMisto)] 0
     "bad.xml" docSemLote "numeroLote não encontrado no XML." rfl
     (parse_errors_isolated.1 docSemLote "bad.xml" rfl rfl),
   parse_errors_isolated.2.2.2 [("bad.xml", docSemLote), ("a.xml", docMisto)] 1
     "a.xml" docMisto resumoMisto rfl (by with_unfolding_all rfl)⟩

/-- C9: on a reconciliation row joined to statement values, the
presented difference is the XML-declared total minus the statement's
presented value, the presented-matches flag holds exactly when that
difference is within 0.01 in absolute value, and the
statement-consistency flag holds exactly when the presented value is
within 0.01 of approved plus withheld. -/
theorem baixa_flags_thresholds :
    ∀ (x : ℚ) (dv : DemoVals),
      (make_baixa_row x (some dv)).apresentado_diff = x - dv.valor_apresentado ∧
      ((make_baixa_row x (some dv)).apresentado_confere = true ↔
        |x - dv.valor_apresentado| ≤ 1 / 100) ∧
      ((make_baixa_row x (some dv)).demonstrativo_confere = true ↔
        |dv.valor_apresentado - (dv.valor_apurado + dv.valor_glosa)| ≤ 1 / 100) := by
  intro x dv
  refine ⟨rfl, ?_, ?_⟩
  · simp [make_baixa_row]
  · simp [make_baixa_row]

/-- C10: every successfully parsed summary record carries statement-side
values `valor_glosado` and `valor_liberado` equal to zero, and carries a
protocol exactly when the document is an appeal whose declared protocol
text is non-empty. -/
theorem parse_root_statement_fields :
    ∀ (d : Doc) (n : String) (r : Resumo), parse_root d n = Except.ok r →
      r.valor_glosado = 0 ∧ r.valor_liberado = 0 ∧
      (r.protocolo ≠ none ↔
        r.tipo = "RECURSO" ∧ getText d.numeroProtocolo ≠ "") := by
  intro d n r h
  unfold parse_root at h
  cases hg : get_numero_lote d with
  | error e => rw [hg] at h; exact absurd h (by simp)
  | ok nl =>
    rw [hg] at h
    cases h1 : is_recurso d with
    | true =>
      simp only [h1, if_true] at h
      injection h with h
      subst h
      refine ⟨rfl, rfl, ?_⟩
      by_cases hp : getText d.numeroProtocolo = "" <;>
        simp [sum_recurso, hp]
    | false =>
      simp only [h1, Bool.false_eq_true, if_false] at h
      cases h2 : is_consulta d with
      | true =>
        simp only [h2, if_true] at h
        injection h with h
        subst h
        simp
      | false =>
        simp only [h2, Bool.false_eq_true, if_false] at h
        injection h with h
        subst h
        refine ⟨rfl, rfl, ?_⟩
        cases h3 : is_sadt d <;> simp [h3]

/-- The summary record of `docRecursoMixto`. -/
def resumoRecursoMixto : Resumo :=
  { arquivo := "r.xml", numero_lote := "92400", tipo := "RECURSO", qtde_guias := 2,
    valor_total := 500, valor_glosado := 0, valor_liberado := 0,
    estrategia_total := "recurso_valorTotalRecursado", protocolo := some "P1",
    erro := none }

/-- Witness for C10: the invariant applied to the parsed appeal
document `docRecursoMixto`. -/
theorem parse_root_statement_fields_witness :
    resumoRecursoMixto.valor_glosado = 0 ∧ resumoRecursoMixto.valor_liberado = 0 ∧
    (resumoRecursoMixto.protocolo ≠ none ↔
      resumoRecursoMixto.tipo = "RECURSO" ∧
        getText docRecursoMixto.numeroProtocolo ≠ "") :=
  parse_root_statement_fields docRecursoMixto "r.xml" resumoRecursoMixto
    (by with_unfolding_all rfl)
